import Mathlib

/-!
# keyboard_controller.h

A shallow embedding of the header of the PS/2 keyboard controller: the register
addresses, the flag and command constants, the pin masks and the table
`scancode_to_ascii`, followed by the properties proved about them.

Bytes are natural numbers; the bitwise operators of C are `&&&`, `|||` and `^^^`,
and the complement of a byte `x` is `0xFF ^^^ x`.
-/

set_option maxRecDepth 100000

namespace KeyboardController

/-! ## Addresses -/

/-- Last scanned key (read-only). -/
def ADDR_KEY : Nat := 0x00
/-- Flags from last scanned key (read-only). -/
def ADDR_KEYFLAGS : Nat := 0x01
/-- Keystrokes remaining in the buffer (read-only, not implemented). -/
def ADDR_BUFLEN : Nat := 0x02
/-- Send commands to the keyboard (write-only). -/
def ADDR_KBCTRL : Nat := 0x03
/-- Configuration flags (read-write). -/
def ADDR_CONFIG : Nat := 0x04

/-! ## ADDR_KEYFLAGS -/

/-- MAKE=1, BREAK=0. -/
def KEYFLAG_MAKEBREAK : Nat := 0x01
/-- Flags high if key is currently pressed. -/
def KEYFLAG_SHIFT : Nat := 0x02
def KEYFLAG_CTRL : Nat := 0x04
def KEYFLAG_ALT : Nat := 0x08
def KEYFLAG_SUPER : Nat := 0x10
def KEYFLAG_GUI : Nat := 0x20
def KEYFLAG_FUNCTION : Nat := 0x40

/-! ## ADDR_KBCTRL -/

def KBCTRL_NONE : Nat := 0x00
def KBCTRL_NUMLOCK_ON : Nat := 0x01
def KBCTRL_NUMLOCK_OFF : Nat := 0x02
def KBCTRL_CAPSLOCK_ON : Nat := 0x03
def KBCTRL_CAPSLOCK_OFF : Nat := 0x04
def KBCTRL_KB_RESET : Nat := 0x05
def KBCTRL_BUFCLEAR : Nat := 0x06
def KBCTRL_INTCLEAR : Nat := 0x07

/-! ## ADDR_CONFIG -/

/-- Generate interrupt on key make events. -/
def CONFIG_INTMAKE : Nat := 0x01
/-- Generate interrupt on key break events. -/
def CONFIG_INTBREAK : Nat := 0x02
/-- Generate interrupts for shift/ctrl/alt/super. -/
def CONFIG_INTSPECIAL : Nat := 0x04
/-- If set, CPU_INT_PIN clears upon reading ADDR_KEY; if clear, the CPU must send
the KBCTRL_INTCLEAR command. -/
def CONFIG_INTCLR_READ : Nat := 0x08
/-- Enable the key buffer (not implemented). -/
def CONFIG_BUFFER : Nat := 0x10

/-! ## Pin masks -/

/-- Data bus low nibble, bottom of PORTB (pins 8-11). -/
def DATABUS_LOW_MASK : Nat := 0x0f
/-- Data bus high nibble, top of PORTD (pins 4-7). -/
def DATABUS_HIGH_MASK : Nat := 0xf0
/-- CPU interrupt line on PORTB (pin 12), pulled low to signal an interrupt. -/
def CPU_INT_MASK : Nat := 0x10
/-- CPU clock line on PINB (pin 13). -/
def CPU_CLK_MASK : Nat := 0x20
/-- Enable line on PORTD (pin 3). -/
def ENABLE_PIN_MASK : Nat := 0x08
/-- Address lines on PORTC (pins A0-2): support for 8 registers. -/
def ADDR_PINS_MASK : Nat := 0x07
/-- Write line on PORTC (pin A3). -/
def WRITE_PINS_MASK : Nat := 0x08
/-- Pin 2 carries the PS/2 clock because it allows interrupts. -/
def PS2_CLOCK_PIN : Nat := 2

/-! ## The scancode table -/

/-- The array `scancode_to_ascii`, one entry per line as in the header, with the
index of each entry beside it. -/
def scancode_to_ascii : List Char := [
  '\x00', -- [00]
  '\x00', -- [01]
  '\x00', -- [02]
  '\x00', -- [03]
  '\x00', -- [04]
  '\x00', -- [05]
  '\x00', -- [06]
  '\x00', -- [07]
  '\x08', -- [08]
  '\x00', -- [09]
  '\x00', -- [0a]
  '\x00', -- [0b]
  '\x00', -- [0c]
  '\t',   -- [0d]
  '\x60', -- [0e]
  '=',    -- [0f]
  '\x00', -- [10]
  '\x00', -- [11]
  '\x00', -- [12]
  '\x00', -- [13]
  '\x00', -- [14]
  'q',    -- [15]
  '1',    -- [16]
  '\x00', -- [17]
  '\x00', -- [18]
  '\x00', -- [19]
  'z',    -- [1a]
  's',    -- [1b]
  'a',    -- [1c]
  'w',    -- [1d]
  '2',    -- [1e]
  '\x00', -- [1f]
  '\x00', -- [20]
  'c',    -- [21]
  'x',    -- [22]
  'd',    -- [23]
  'e',    -- [24]
  '4',    -- [25]
  '3',    -- [26]
  '\x00', -- [27]
  '\x00', -- [28]
  ' ',    -- [29]
  'v',    -- [2a]
  'f',    -- [2b]
  't',    -- [2c]
  'r',    -- [2d]
  '5',    -- [2e]
  '\x00', -- [2f]
  '\x00', -- [30]
  'n',    -- [31]
  'b',    -- [32]
  'h',    -- [33]
  'g',    -- [34]
  'y',    -- [35]
  '6',    -- [36]
  '\x00', -- [37]
  '\x00', -- [38]
  '\x00', -- [39]
  'm',    -- [3a]
  'j',    -- [3b]
  'u',    -- [3c]
  '7',    -- [3d]
  '8',    -- [3e]
  '\x00', -- [3f]
  '\x00', -- [40]
  ',',    -- [41]
  'k',    -- [42]
  'i',    -- [43]
  'o',    -- [44]
  '0',    -- [45]
  '9',    -- [46]
  '\x00', -- [47]
  '\x00', -- [48]
  '.',    -- [49]
  '/',    -- [4a]
  'l',    -- [4b]
  ';',    -- [4c]
  'p',    -- [4d]
  '-',    -- [4e]
  '\x00', -- [4f]
  '\x00', -- [50]
  '\x00', -- [51]
  '\x27', -- [52]
  '\x00', -- [53]
  '[',    -- [54]
  '=',    -- [55]
  '\x00', -- [56]
  '\x0c', -- [57]
  '\x00', -- [58]
  '\x00', -- [59]
  '\r',   -- [5a]
  ']',    -- [5b]
  '\x00', -- [5c]
  '\x5c', -- [5d]
  '\x00', -- [5e]
  '\x00', -- [5f]
  '\x14', -- [60]
  '\x11', -- [61]
  '\x17', -- [62]
  '\x13', -- [63]
  '\x7f', -- [64]
  '\x03', -- [65]
  '\x08', -- [66]
  '\x0f', -- [67]
  '\x00', -- [68]
  '1',    -- [69]
  '\x12', -- [6a]
  '4',    -- [6b]
  '7',    -- [6c]
  '\x1d', -- [6d]
  '\x02', -- [6e]
  '\x1c', -- [6f]
  '0',    -- [70]
  '.',    -- [71]
  '2',    -- [72]
  '5',    -- [73]
  '6',    -- [74]
  '8',    -- [75]
  '\x1b', -- [76]
  '/',    -- [77]
  '\x00', -- [78]
  '\r',   -- [79]
  '3',    -- [7a]
  '-',    -- [7b]
  '+',    -- [7c]
  '9',    -- [7d]
  '*',    -- [7e]
  '\x00', -- [7f]
  '\x00', -- [80]
  '\x00', -- [81]
  '\x00', -- [82]
  '\x00', -- [83]
  '-'     -- [84]
]

/-- The key named by the comment of each entry of `scancode_to_ascii`, in the
same order. -/
def scancode_labels : List String := [
  "unused",                     -- [00]
  "unused",                     -- [01]
  "unused",                     -- [02]
  "unused",                     -- [03]
  "unused",                     -- [04]
  "unused",                     -- [05]
  "unused",                     -- [06]
  "unused",                     -- [07]
  "Escape",                     -- [08]
  "unused",                     -- [09]
  "unused",                     -- [0a]
  "unused",                     -- [0b]
  "unused",                     -- [0c]
  "Tab",                        -- [0d]
  "\x60 ~",                     -- [0e]
  "Keypad =",                   -- [0f]
  "F14",                        -- [10]
  "Left Alt",                   -- [11]
  "Left Shift",                 -- [12]
  "unused",                     -- [13]
  "Left Control",               -- [14]
  "q Q",                        -- [15]
  "1 !",                        -- [16]
  "unused",                     -- [17]
  "F15",                        -- [18]
  "unused",                     -- [19]
  "z Z",                        -- [1a]
  "s S",                        -- [1b]
  "a A",                        -- [1c]
  "w W",                        -- [1d]
  "2 @",                        -- [1e]
  "unused",                     -- [1f]
  "F16",                        -- [20]
  "c C",                        -- [21]
  "x X",                        -- [22]
  "d D",                        -- [23]
  "e E",                        -- [24]
  "4 $",                        -- [25]
  "3 #",                        -- [26]
  "unused",                     -- [27]
  "F17",                        -- [28]
  "Space",                      -- [29]
  "v V",                        -- [2a]
  "f F",                        -- [2b]
  "t T",                        -- [2c]
  "r R",                        -- [2d]
  "5 %",                        -- [2e]
  "unused",                     -- [2f]
  "F18",                        -- [30]
  "n N",                        -- [31]
  "b B",                        -- [32]
  "h H",                        -- [33]
  "g G",                        -- [34]
  "y Y",                        -- [35]
  "6 ^",                        -- [36]
  "unused",                     -- [37]
  "F19",                        -- [38]
  "unused",                     -- [39]
  "m M",                        -- [3a]
  "j J",                        -- [3b]
  "u U",                        -- [3c]
  "7 &",                        -- [3d]
  "8 *",                        -- [3e]
  "unused",                     -- [3f]
  "F20",                        -- [40]
  ", <",                        -- [41]
  "k K",                        -- [42]
  "i I",                        -- [43]
  "o O",                        -- [44]
  "0 )",                        -- [45]
  "9 (",                        -- [46]
  "unused",                     -- [47]
  "F21",                        -- [48]
  ". >",                        -- [49]
  "/ ?",                        -- [4a]
  "l L",                        -- [4b]
  "; :",                        -- [4c]
  "p P",                        -- [4d]
  "- _",                        -- [4e]
  "unused",                     -- [4f]
  "F22",                        -- [50]
  "unused",                     -- [51]
  "\x27 \x22",                  -- [52]
  "unused",                     -- [53]
  "[ \x7b",                     -- [54]
  "= +",                        -- [55]
  "unused",                     -- [56]
  "PrintScr",                   -- [57]
  "Caps Lock",                  -- [58]
  "Right Shift",                -- [59]
  "Return",                     -- [5a]
  "] \x7d",                     -- [5b]
  "unused",                     -- [5c]
  "\x5c |",                     -- [5d]
  "unused",                     -- [5e]
  "F24",                        -- [5f]
  "Down arrow",                 -- [60]
  "Left arrow",                 -- [61]
  "Pause/Break",                -- [62]
  "Up arrow",                   -- [63]
  "Delete",                     -- [64]
  "End",                        -- [65]
  "Backspace",                  -- [66]
  "Insert",                     -- [67]
  "unused",                     -- [68]
  "Keypad 1 End",               -- [69]
  "Right arrow",                -- [6a]
  "Keypad 4 Left",              -- [6b]
  "Keypad Home (numlock off)",  -- [6c]
  "PgDown",                     -- [6d]
  "Home",                       -- [6e]
  "PgUp",                       -- [6f]
  "Keypad 0 Insert",            -- [70]
  "Keypad . Delete",            -- [71]
  "Keypad 2 Down",              -- [72]
  "Keypad 5",                   -- [73]
  "Keypad 6 Right",             -- [74]
  "Keypad 8 Up",                -- [75]
  "Escape",                     -- [76]
  "Keypad /",                   -- [77]
  "F11",                        -- [78]
  "Keypad Enter",               -- [79]
  "Keypad 3 PageDn",            -- [7a]
  "Keypad -",                   -- [7b]
  "Keypad +",                   -- [7c]
  "Keypad 9 PageUp",            -- [7d]
  "Keypad *",                   -- [7e]
  "unused",                     -- [7f]
  "unused",                     -- [80]
  "unused",                     -- [81]
  "unused",                     -- [82]
  "unused",                     -- [83]
  "Keypad -"                    -- [84]
]

/-- The read `scancode_to_ascii[code]`. `none` stands for an index past the last
entry of the array, where the C expression reads outside the table. -/
def lookup (code : Nat) : Option Char :=
  scancode_to_ascii.get? code

/-- The key label written beside entry `code` of the table. -/
def label (code : Nat) : Option String :=
  scancode_labels.get? code

/-- The unshifted ASCII character that a key label stands for: the null
character for `unused`, the first character of a pair such as `q Q`, the
character after `Keypad` for a keypad key, and the ASCII control code of the
keys that have one (Tab, Space, Return, Backspace, Escape, Delete). The other
labels (function keys, modifiers, arrows, navigation keys) name no ASCII
character and give `none`. -/
def label_ascii (l : List Char) : Option Char :=
  match l with
  | ['u', 'n', 'u', 's', 'e', 'd'] => some '\x00'
  | [c, ' ', _] => some c
  | ['K', 'e', 'y', 'p', 'a', 'd', ' ', c] => some c
  | 'K' :: 'e' :: 'y' :: 'p' :: 'a' :: 'd' :: ' ' :: c :: ' ' :: _ => some c
  | ['T', 'a', 'b'] => some '\t'
  | ['S', 'p', 'a', 'c', 'e'] => some ' '
  | ['R', 'e', 't', 'u', 'r', 'n'] => some '\r'
  | ['B', 'a', 'c', 'k', 's', 'p', 'a', 'c', 'e'] => some '\x08'
  | ['E', 's', 'c', 'a', 'p', 'e'] => some '\x1b'
  | ['D', 'e', 'l', 'e', 't', 'e'] => some '\x7f'
  | _ => none

/-- The ASCII character documented for entry `code` by its label, when the
label names one. -/
def documented_ascii (code : Nat) : Option Char :=
  match label code with
  | some l => label_ascii l.toList
  | none => none

/-- The labels of the modifier keys and of Caps Lock. -/
def modifier_labels : List String :=
  ["Left Alt", "Left Shift", "Left Control", "Right Shift", "Caps Lock"]

/-- Modelled from the spec: the byte that opens an extended sequence, which the
translator (not in the header) consumes without completing a key event. -/
def SCANCODE_EXTENDED : Nat := 0xE0

/-- Modelled from the spec: the byte that opens a break sequence, which the
translator (not in the header) consumes without completing a key event. -/
def SCANCODE_BREAK : Nat := 0xF0

/-- Modelled from the spec: a raw byte completes a scancode sequence when it is
an 8-bit value other than the two sequence-opening bytes. -/
def completes_sequence (raw : Nat) : Bool :=
  decide (raw < 256) && raw != SCANCODE_EXTENDED && raw != SCANCODE_BREAK

/-! ## Address decoding -/

/-- The defined registers, in address order. -/
def REGISTER_ADDRESSES : List Nat :=
  [ADDR_KEY, ADDR_KEYFLAGS, ADDR_BUFLEN, ADDR_KBCTRL, ADDR_CONFIG]

/-- The register selected by a value read from the address port:
`ADDR_PINS & ADDR_PINS_MASK`. -/
def decode_address (pins : Nat) : Nat :=
  pins &&& ADDR_PINS_MASK

/-! ## Flag bytes -/

/-- The KEYFLAG constants, in bit order. -/
def KEYFLAGS : List Nat :=
  [KEYFLAG_MAKEBREAK, KEYFLAG_SHIFT, KEYFLAG_CTRL, KEYFLAG_ALT, KEYFLAG_SUPER,
   KEYFLAG_GUI, KEYFLAG_FUNCTION]

/-- The KBCTRL command bytes, in numeric order. -/
def KBCTRL_COMMANDS : List Nat :=
  [KBCTRL_NONE, KBCTRL_NUMLOCK_ON, KBCTRL_NUMLOCK_OFF, KBCTRL_CAPSLOCK_ON,
   KBCTRL_CAPSLOCK_OFF, KBCTRL_KB_RESET, KBCTRL_BUFCLEAR, KBCTRL_INTCLEAR]

/-- The CONFIG constants, in bit order. -/
def CONFIG_FLAGS : List Nat :=
  [CONFIG_INTMAKE, CONFIG_INTBREAK, CONFIG_INTSPECIAL, CONFIG_INTCLR_READ, CONFIG_BUFFER]

/-- The byte obtained by OR-ing flag constants into zero: `b |= F` for each `F`. -/
def pack_flags (flags : List Nat) : Nat :=
  flags.foldl (fun b f => b ||| f) 0

/-- The test `(b & F) != 0`. -/
def flag_set (b f : Nat) : Bool :=
  b &&& f != 0

/-- The complement `~x` of a byte, kept to 8 bits. -/
def complement8 (x : Nat) : Nat :=
  0xFF ^^^ x

/-- Setting a flag: `c | F`. -/
def set_flag (c f : Nat) : Nat :=
  c ||| f

/-- Clearing a flag: `c & ~F`. -/
def clear_flag (c f : Nat) : Nat :=
  c &&& complement8 f

/-! ## Interrupt clearing policy -/

/-- The first policy named by the comment on CONFIG_INTCLR_READ: if the flag is
set, CPU_INT_PIN clears upon reading ADDR_KEY. -/
def clears_on_read (config : Nat) : Bool :=
  config &&& CONFIG_INTCLR_READ != 0

/-- The second policy named by the comment on CONFIG_INTCLR_READ: if the flag is
clear, the CPU must send the KBCTRL_INTCLEAR command. -/
def requires_intclear (config : Nat) : Bool :=
  config &&& CONFIG_INTCLR_READ == 0

/-! ## Data bus -/

/-- The part of a byte carried by the low-nibble port. -/
def databus_low (b : Nat) : Nat :=
  b &&& DATABUS_LOW_MASK

/-- The part of a byte carried by the high-nibble port. -/
def databus_high (b : Nat) : Nat :=
  b &&& DATABUS_HIGH_MASK

/-! ## The register file -/

/-- The rvalue `config`, that is `registers[ADDR_CONFIG]`. The array `registers`
is declared outside the header and is taken as a parameter; `none` stands for
an array too short to hold the slot. -/
def config_read (registers : List Nat) : Option Nat :=
  registers.get? ADDR_CONFIG

/-- The assignment `config = v`, that is `registers[ADDR_CONFIG] = v`, storing
a byte. -/
def config_write (registers : List Nat) (v : Nat) : List Nat :=
  registers.set ADDR_CONFIG (v % 256)

/-! ## Pins sharing a port -/

/-- The bits of PORTD that the header's comment sets aside for serial: pins 0
and 1. -/
def SERIAL_PINS_MASK : Nat := 0x03

/-- The bit of PORTD that carries the PS/2 clock: pin PS2_CLOCK_PIN. -/
def PS2_CLOCK_MASK : Nat := 1 <<< PS2_CLOCK_PIN

/-- The bits of PORTD of pins 0-2, kept for serial and the PS/2 clock
interrupt. -/
def PORTD_RESERVED_MASK : Nat := SERIAL_PINS_MASK ||| PS2_CLOCK_MASK

/-- The masks of the signals on PORTB. -/
def PORTB_MASKS : List Nat := [DATABUS_LOW_MASK, CPU_INT_MASK, CPU_CLK_MASK]

/-- The masks of the signals on PORTD. -/
def PORTD_MASKS : List Nat := [DATABUS_HIGH_MASK, ENABLE_PIN_MASK, PORTD_RESERVED_MASK]

/-- The masks of the signals on PORTC. -/
def PORTC_MASKS : List Nat := [ADDR_PINS_MASK, WRITE_PINS_MASK]

/-- Replacing the bits of a port value `p` selected by `mask` with those of a
data byte `b`: `(p & ~MASK) | (b & MASK)`. -/
def drive_bits (mask p b : Nat) : Nat :=
  (p &&& complement8 mask) ||| (b &&& mask)

/-! ## Reading the table by value -/

/-- The scancodes whose entry of `scancode_to_ascii` holds the character `c`, in
increasing order. -/
def scancodes_of (c : Char) : List Nat :=
  (List.range scancode_to_ascii.length).filter (fun i => lookup i == some c)

/-- The digits `0` to `9`. -/
def digits : List Char :=
  ['0', '1', '2', '3', '4', '5', '6', '7', '8', '9']

/-- The lowercase letters `a` to `z`. -/
def lowercase_letters : List Char :=
  ['a', 'b', 'c', 'd', 'e', 'f', 'g', 'h', 'i', 'j', 'k', 'l', 'm',
   'n', 'o', 'p', 'q', 'r', 's', 't', 'u', 'v', 'w', 'x', 'y', 'z']

/-- Whether a character is an uppercase letter `A` to `Z`. -/
def is_uppercase (c : Char) : Bool :=
  decide ('A'.toNat ≤ c.toNat) && decide (c.toNat ≤ 'Z'.toNat)

/-- Whether the label of an entry starts with the word Keypad. -/
def is_keypad (code : Nat) : Bool :=
  match label code with
  | some l => "Keypad".toList.isPrefixOf l.toList
  | none => false

/-- The value of a byte read as a `signed char`, in two's complement. -/
def signed_char_value (b : Nat) : Int :=
  if b % 256 < 128 then ((b % 256 : Nat) : Int) else ((b % 256 : Nat) : Int) - 256

/-- The value of a byte read as an `unsigned char`. -/
def unsigned_char_value (b : Nat) : Int :=
  ((b % 256 : Nat) : Int)

/-! ## The interrupt line -/

/-- Modelled from the spec: the part of a committed key event that the interrupt
controller (not in the header) looks at. `makeBreak` is true for a make and
false for a break; `modifierOnly` tells a modifier-only (shift/ctrl/alt/super)
transition. -/
structure KeyEvent where
  makeBreak : Bool
  modifierOnly : Bool
  deriving DecidableEq

/-- Modelled from the spec: the categories of key event that CONFIG can select
for an interrupt. -/
inductive EventCategory where
  | keyMake
  | keyBreak
  | special
  deriving DecidableEq

/-- The CONFIG bit that the header documents for a category of event:
CONFIG_INTMAKE for key make events, CONFIG_INTBREAK for key break events,
CONFIG_INTSPECIAL for shift/ctrl/alt/super. -/
def relevant_config_bit : EventCategory → Nat
  | .keyMake => CONFIG_INTMAKE
  | .keyBreak => CONFIG_INTBREAK
  | .special => CONFIG_INTSPECIAL

/-- Modelled from the spec: the categories a key event falls in. Every event is
a make or a break; a modifier-only transition is in addition special. -/
def event_categories (ev : KeyEvent) : List EventCategory :=
  (if ev.makeBreak then [EventCategory.keyMake] else [EventCategory.keyBreak]) ++
    (if ev.modifierOnly then [EventCategory.special] else [])

/-- Modelled from the spec: the contract of the interrupt controller (not in the
header). After a key event is committed the line is asserted if either
CONFIG_INTMAKE and the event is a make, or CONFIG_INTBREAK and the event is a
break, or CONFIG_INTSPECIAL and the event is a modifier-only transition. -/
def asserts_on_commit (config : Nat) (ev : KeyEvent) : Bool :=
  (flag_set config CONFIG_INTMAKE && ev.makeBreak) ||
  (flag_set config CONFIG_INTBREAK && !ev.makeBreak) ||
  (flag_set config CONFIG_INTSPECIAL && ev.modifierOnly)

/-- Modelled from the spec: the state the interrupt controller works on, the
CONFIG byte and whether the interrupt line is asserted. -/
structure InterruptState where
  config : Nat
  asserted : Bool
  deriving DecidableEq

/-- Modelled from the spec: what can happen to the controller, a key event being
committed, a bus read of a register, or a bus write of a byte to a register. -/
inductive Transaction where
  | commit (ev : KeyEvent)
  | read (addr : Nat)
  | write (addr : Nat) (value : Nat)
  deriving DecidableEq

/-- Modelled from the spec: one step of the interrupt controller and command
processor (not in the header). A commit asserts the line by `asserts_on_commit`
and never deasserts it (asserting an asserted line is a no-op); a read of KEY
deasserts it when CONFIG_INTCLR_READ is set; a write of KBCTRL_INTCLEAR to
KBCTRL deasserts it unconditionally; a write to CONFIG sets the configuration
byte; every other read, write or command leaves the state as it is. -/
def step (s : InterruptState) : Transaction → InterruptState
  | .commit ev => { s with asserted := s.asserted || asserts_on_commit s.config ev }
  | .read addr =>
    if addr = ADDR_KEY ∧ clears_on_read s.config = true then { s with asserted := false }
    else s
  | .write addr value =>
    if addr = ADDR_KBCTRL then
      if value = KBCTRL_INTCLEAR then { s with asserted := false } else s
    else if addr = ADDR_CONFIG then { s with config := value % 256 }
    else s

/-! ## Properties of the scancode table -/

theorem scancode_to_ascii_length : scancode_to_ascii.length = 0x85 := by decide

theorem scancode_labels_length : scancode_labels.length = 0x85 := by decide

/-- C1: at scancode 0x08 the table does not hold the ASCII value of the key named
by its label. The entry is labelled Escape, and the ASCII code of Escape is 0x1B,
which the other entry labelled Escape (0x76) holds; entry 0x08 holds 0x08, the
value of the Backspace entry 0x66. -/
theorem scancode_08_escape_reads_backspace :
    label 0x08 = some "Escape" ∧ documented_ascii 0x08 = some '\x1b' ∧
    lookup 0x08 = some '\x08' ∧
    label 0x76 = some "Escape" ∧ lookup 0x76 = some '\x1b' ∧
    label 0x66 = some "Backspace" ∧ lookup 0x66 = some '\x08' := by
  decide

/-- Every entry other than 0x08 holds the ASCII value documented by its label,
whenever the label names one; in particular every entry labelled unused holds
the null character. -/
theorem scancode_to_ascii_documented_except_08 :
    (∀ i < 0x85, i ≠ 0x08 → ∀ c, documented_ascii i = some c → lookup i = some c) ∧
    (∀ i < 0x85, label i = some "unused" → lookup i = some '\x00') ∧
    lookup 0x1C = some 'a' ∧ lookup 0x29 = some ' ' ∧ lookup 0x5A = some '\r' ∧
    lookup 0x0D = some '\t' ∧ lookup 0x66 = some '\x08' ∧ lookup 0x76 = some '\x1b' := by
  decide

/-- C2, as stated, fails: the byte 0x85 completes a scancode sequence, and so do
0xAA and 0xFF, yet the table has no entry at these indices. -/
theorem lookup_past_table_end :
    completes_sequence 0x85 = true ∧ lookup 0x85 = none ∧
    completes_sequence 0xAA = true ∧ lookup 0xAA = none ∧
    completes_sequence 0xFF = true ∧ lookup 0xFF = none := by
  decide

/-- C2, amended: indexing the table is defined exactly for the raw codes
0x00..0x84, where it yields a 7-bit value (an ASCII character or the null
character); every raw code from 0x85 up indexes past the end of the table. -/
theorem lookup_defined_iff_in_table (raw : Nat) :
    ((∃ c, lookup raw = some c) ↔ raw < 0x85) ∧
    (∀ c, lookup raw = some c → c.toNat ≤ 0x7F) ∧
    (0x85 ≤ raw → lookup raw = none) := by
  have hlen := scancode_to_ascii_length
  refine ⟨?_, ?_, ?_⟩
  · constructor
    · rintro ⟨c, hc⟩
      have := List.get?_eq_some.mp hc
      obtain ⟨h, _⟩ := this
      omega
    · intro h
      have h2 : raw < scancode_to_ascii.length := by omega
      exact ⟨scancode_to_ascii.get ⟨raw, h2⟩, List.get?_eq_get h2⟩
  · intro c hc
    have hmem : c ∈ scancode_to_ascii := List.get?_mem hc
    have hall : ∀ x ∈ scancode_to_ascii, x.toNat ≤ 0x7F := by decide
    exact hall c hmem
  · intro h
    exact List.get?_eq_none.mpr (by omega)

/-- C3: the entries of the modifier keys present in the table (Left Alt 0x11,
Left Shift 0x12, Left Control 0x14, Right Shift 0x59) and of Caps Lock (0x58)
hold the null character, these are the only entries labelled as such keys, and
entry 0x1C holds the letter a. -/
theorem modifier_scancodes_lookup_null :
    label 0x11 = some "Left Alt" ∧ lookup 0x11 = some '\x00' ∧
    label 0x12 = some "Left Shift" ∧ lookup 0x12 = some '\x00' ∧
    label 0x14 = some "Left Control" ∧ lookup 0x14 = some '\x00' ∧
    label 0x59 = some "Right Shift" ∧ lookup 0x59 = some '\x00' ∧
    label 0x58 = some "Caps Lock" ∧ lookup 0x58 = some '\x00' ∧
    (∀ i < 0x85, ∀ l ∈ modifier_labels, label i = some l →
      lookup i = some '\x00' ∧ i ∈ [0x11, 0x12, 0x14, 0x58, 0x59]) ∧
    lookup 0x1C = some 'a' := by
  decide

/-! ## Properties of the register map and the flag bytes -/

/-- C4: the register map is KEY=0, KEYFLAGS=1, BUFLEN=2, KBCTRL=3, CONFIG=4; the
five addresses are pairwise distinct and unchanged by the address mask; every
value of the address port decodes to one of the slots 0..7, each of which is
reached; and the slots outside the defined set are exactly 5, 6 and 7. -/
theorem register_map_decoding :
    ADDR_KEY = 0x00 ∧ ADDR_KEYFLAGS = 0x01 ∧ ADDR_BUFLEN = 0x02 ∧ ADDR_KBCTRL = 0x03 ∧
    ADDR_CONFIG = 0x04 ∧
    REGISTER_ADDRESSES.Nodup ∧
    (∀ a ∈ REGISTER_ADDRESSES, a &&& ADDR_PINS_MASK = a) ∧
    (∀ pins : Nat, decode_address pins < 8) ∧
    (∀ slot < 8, decode_address slot = slot) ∧
    (∀ slot < 8, slot ∉ REGISTER_ADDRESSES ↔ slot = 5 ∨ slot = 6 ∨ slot = 7) := by
  refine ⟨rfl, rfl, rfl, rfl, rfl, by decide, by decide, ?_, by decide, by decide⟩
  intro pins
  have h : pins &&& ADDR_PINS_MASK ≤ ADDR_PINS_MASK := Nat.and_le_right
  have h7 : ADDR_PINS_MASK = 7 := rfl
  unfold decode_address
  omega

theorem or_eq_zero_iff (a b : Nat) : a ||| b = 0 ↔ a = 0 ∧ b = 0 := by
  constructor
  · intro h
    have hbit : ∀ i, a.testBit i = false ∧ b.testBit i = false := by
      intro i
      have hi : (a ||| b).testBit i = false := by rw [h]; exact Nat.zero_testBit i
      simpa using hi
    constructor
    · apply Nat.eq_of_testBit_eq
      intro i
      rw [(hbit i).1, Nat.zero_testBit]
    · apply Nat.eq_of_testBit_eq
      intro i
      rw [(hbit i).2, Nat.zero_testBit]
  · rintro ⟨rfl, rfl⟩
    rfl

theorem foldl_or_and_ne_zero (flags : List Nat) (acc f : Nat) :
    (flags.foldl (fun b x => b ||| x) acc) &&& f ≠ 0 ↔
      acc &&& f ≠ 0 ∨ ∃ x ∈ flags, x &&& f ≠ 0 := by
  induction flags generalizing acc with
  | nil => simp
  | cons x rest ih =>
    rw [List.foldl_cons, ih, Nat.and_distrib_right]
    have hor := or_eq_zero_iff (acc &&& f) (x &&& f)
    constructor
    · rintro (h | ⟨y, hy, hne⟩)
      · by_cases ha : acc &&& f = 0
        · right
          refine ⟨x, List.mem_cons_self x rest, ?_⟩
          intro hx
          exact h (hor.mpr ⟨ha, hx⟩)
        · left
          exact ha
      · right
        exact ⟨y, List.mem_cons_of_mem x hy, hne⟩
    · rintro (h | ⟨y, hy, hne⟩)
      · left
        intro h0
        exact h (hor.mp h0).1
      · rcases List.mem_cons.mp hy with rfl | hy2
        · left
          intro h0
          exact hne (hor.mp h0).2
        · right
          exact ⟨y, hy2, hne⟩

theorem keyflags_overlap_iff_eq :
    ∀ x ∈ KEYFLAGS, ∀ f ∈ KEYFLAGS, (x &&& f ≠ 0 ↔ x = f) := by
  decide

/-- C5: each KEYFLAG constant is 1 shifted by its bit number (make/break 0,
shift 1, ctrl 2, alt 3, super 4, gui 5, function 6), the seven are pairwise
disjoint and their union is 0x7F; for every collection of flags, OR-ing its
constants into a byte and testing a flag with AND tells exactly whether that
flag is in the collection; and a make event with no modifier packs to 0x01. -/
theorem keyflags_pack_roundtrip (flags : List Nat) (f : Nat)
    (hflags : ∀ x ∈ flags, x ∈ KEYFLAGS) (hf : f ∈ KEYFLAGS) :
    KEYFLAG_MAKEBREAK = 1 <<< 0 ∧ KEYFLAG_SHIFT = 1 <<< 1 ∧ KEYFLAG_CTRL = 1 <<< 2 ∧
    KEYFLAG_ALT = 1 <<< 3 ∧ KEYFLAG_SUPER = 1 <<< 4 ∧ KEYFLAG_GUI = 1 <<< 5 ∧
    KEYFLAG_FUNCTION = 1 <<< 6 ∧
    KEYFLAGS.Pairwise (fun a b => a &&& b = 0) ∧
    pack_flags KEYFLAGS = 0x7F ∧
    (flag_set (pack_flags flags) f = true ↔ f ∈ flags) ∧
    pack_flags [KEYFLAG_MAKEBREAK] = 0x01 := by
  refine ⟨rfl, rfl, rfl, rfl, rfl, rfl, rfl, by decide, by decide, ?_, by decide⟩
  unfold flag_set pack_flags
  rw [bne_iff_ne, foldl_or_and_ne_zero]
  constructor
  · rintro (h | ⟨x, hx, hne⟩)
    · simp at h
    · have := (keyflags_overlap_iff_eq x (hflags x hx) f hf).mp hne
      rw [← this]
      exact hx
  · intro hmem
    right
    exact ⟨f, hmem, (keyflags_overlap_iff_eq f hf f hf).mpr rfl⟩

/-- A witness of C5 at the flags of a shifted make event, tested for shift. -/
theorem keyflags_pack_roundtrip_witness :
    KEYFLAG_MAKEBREAK = 1 <<< 0 ∧ KEYFLAG_SHIFT = 1 <<< 1 ∧ KEYFLAG_CTRL = 1 <<< 2 ∧
    KEYFLAG_ALT = 1 <<< 3 ∧ KEYFLAG_SUPER = 1 <<< 4 ∧ KEYFLAG_GUI = 1 <<< 5 ∧
    KEYFLAG_FUNCTION = 1 <<< 6 ∧
    KEYFLAGS.Pairwise (fun a b => a &&& b = 0) ∧
    pack_flags KEYFLAGS = 0x7F ∧
    (flag_set (pack_flags [KEYFLAG_MAKEBREAK, KEYFLAG_SHIFT]) KEYFLAG_SHIFT = true ↔
      KEYFLAG_SHIFT ∈ [KEYFLAG_MAKEBREAK, KEYFLAG_SHIFT]) ∧
    pack_flags [KEYFLAG_MAKEBREAK] = 0x01 :=
  keyflags_pack_roundtrip [KEYFLAG_MAKEBREAK, KEYFLAG_SHIFT] KEYFLAG_SHIFT
    (by decide) (by decide)

/-- C6: the KBCTRL command bytes are NONE=0 .. INTCLEAR=7, pairwise distinct;
a byte denotes a command exactly when it is below 8, it then denotes exactly
one, and a byte from 8 up denotes none. -/
theorem kbctrl_commands_are_0_to_7 (b : Nat) :
    KBCTRL_NONE = 0 ∧ KBCTRL_NUMLOCK_ON = 1 ∧ KBCTRL_NUMLOCK_OFF = 2 ∧
    KBCTRL_CAPSLOCK_ON = 3 ∧ KBCTRL_CAPSLOCK_OFF = 4 ∧ KBCTRL_KB_RESET = 5 ∧
    KBCTRL_BUFCLEAR = 6 ∧ KBCTRL_INTCLEAR = 7 ∧
    KBCTRL_COMMANDS.Nodup ∧
    (b ∈ KBCTRL_COMMANDS ↔ b < 8) ∧
    (b < 8 → KBCTRL_COMMANDS.count b = 1) ∧
    (8 ≤ b → KBCTRL_COMMANDS.count b = 0) := by
  have hlist : KBCTRL_COMMANDS = [0, 1, 2, 3, 4, 5, 6, 7] := rfl
  have hmem : b ∈ KBCTRL_COMMANDS ↔ b < 8 := by
    rw [hlist]
    simp only [List.mem_cons, List.mem_singleton, List.not_mem_nil, or_false]
    omega
  have hnodup : KBCTRL_COMMANDS.Nodup := by decide
  refine ⟨rfl, rfl, rfl, rfl, rfl, rfl, rfl, rfl, hnodup, hmem, ?_, ?_⟩
  · intro hb
    exact List.count_eq_one_of_mem hnodup (hmem.mpr hb)
  · intro hb
    exact List.count_eq_zero_of_not_mem (fun h => by have := hmem.mp h; omega)

/-- C7: the CONFIG flags are bit 0 INTMAKE, bit 1 INTBREAK, bit 2 INTSPECIAL,
bit 3 INTCLR_READ and bit 4 BUFFER, pairwise distinct; for every configuration
byte, setting or clearing one flag leaves the tested value of every other flag
unchanged, while the flag itself reads set after setting and clear after
clearing. -/
theorem config_flags_independent :
    CONFIG_INTMAKE = 1 <<< 0 ∧ CONFIG_INTBREAK = 1 <<< 1 ∧ CONFIG_INTSPECIAL = 1 <<< 2 ∧
    CONFIG_INTCLR_READ = 1 <<< 3 ∧ CONFIG_BUFFER = 1 <<< 4 ∧
    CONFIG_FLAGS.Nodup ∧
    (∀ c < 256, ∀ f ∈ CONFIG_FLAGS, ∀ g ∈ CONFIG_FLAGS, f ≠ g →
      set_flag c f &&& g = c &&& g ∧ clear_flag c f &&& g = c &&& g) ∧
    (∀ c < 256, ∀ f ∈ CONFIG_FLAGS,
      set_flag c f &&& f = f ∧ clear_flag c f &&& f = 0) := by
  decide

/-- C8: for every configuration value exactly one of the two clearing policies
is active, clear-on-read when `config & CONFIG_INTCLR_READ` is non-zero and
explicit KBCTRL_INTCLEAR when it is zero, and flipping any bits other than
CONFIG_INTCLR_READ changes neither. -/
theorem intclr_policy_one_bit (config other : Nat)
    (hother : other &&& CONFIG_INTCLR_READ = 0) :
    ((clears_on_read config = true ∧ requires_intclear config = false) ∨
      (clears_on_read config = false ∧ requires_intclear config = true)) ∧
    (clears_on_read config = true ↔ config &&& CONFIG_INTCLR_READ ≠ 0) ∧
    (requires_intclear config = true ↔ config &&& CONFIG_INTCLR_READ = 0) ∧
    clears_on_read (config ^^^ other) = clears_on_read config ∧
    requires_intclear (config ^^^ other) = requires_intclear config := by
  have hx : (config ^^^ other) &&& CONFIG_INTCLR_READ = config &&& CONFIG_INTCLR_READ := by
    rw [Nat.and_xor_distrib_right, hother, Nat.xor_zero]
  unfold clears_on_read requires_intclear
  rw [hx]
  refine ⟨?_, ?_, ?_, rfl, rfl⟩
  · by_cases h : config &&& CONFIG_INTCLR_READ = 0
    · right
      simp [h]
    · left
      simp [h]
  · exact bne_iff_ne
  · exact beq_iff_eq

/-- A witness of C8: clear-on-read with INTMAKE set, the other four defined
flags being flipped. -/
theorem intclr_policy_one_bit_witness :
    ((clears_on_read 0x09 = true ∧ requires_intclear 0x09 = false) ∨
      (clears_on_read 0x09 = false ∧ requires_intclear 0x09 = true)) ∧
    (clears_on_read 0x09 = true ↔ 0x09 &&& CONFIG_INTCLR_READ ≠ 0) ∧
    (requires_intclear 0x09 = true ↔ 0x09 &&& CONFIG_INTCLR_READ = 0) ∧
    clears_on_read (0x09 ^^^ 0x17) = clears_on_read 0x09 ∧
    requires_intclear (0x09 ^^^ 0x17) = requires_intclear 0x09 :=
  intclr_policy_one_bit 0x09 0x17 (by decide)

/-- C9: the data bus masks are 0x0F and 0xF0, they share no bit and together
cover all eight, and every byte is the OR of its low-nibble and high-nibble
parts. -/
theorem databus_split_recombine :
    DATABUS_LOW_MASK = 0x0F ∧ DATABUS_HIGH_MASK = 0xF0 ∧
    DATABUS_LOW_MASK &&& DATABUS_HIGH_MASK = 0 ∧
    DATABUS_LOW_MASK ||| DATABUS_HIGH_MASK = 0xFF ∧
    (∀ b < 256, databus_low b ||| databus_high b = b) ∧
    (∀ b < 256, databus_low b &&& databus_high b = 0) := by
  decide

/-- C10: `config` is the slot ADDR_CONFIG of the register file; after writing a
byte to it, reading it returns that byte, and every other slot of the register
file holds what it held before. -/
theorem config_write_then_read (registers : List Nat) (v : Nat)
    (hlen : ADDR_CONFIG < registers.length) (hv : v < 256) :
    config_read (config_write registers v) = some v ∧
    (config_write registers v).length = registers.length ∧
    (∀ slot, slot ≠ ADDR_CONFIG →
      (config_write registers v).get? slot = registers.get? slot) := by
  unfold config_read config_write
  refine ⟨?_, List.length_set _ _ _, ?_⟩
  · rw [List.get?_eq_getElem?, List.getElem?_set_self hlen, Nat.mod_eq_of_lt hv]
  · intro slot hslot
    rw [List.get?_eq_getElem?, List.get?_eq_getElem?, List.getElem?_set_ne (Ne.symm hslot)]

/-- A witness of C10: an eight-slot register file holding the key `a` and the
make flag, to whose CONFIG the byte 0x09 is written. -/
theorem config_write_then_read_witness :
    config_read (config_write [0x61, 0x01, 0, 0, 0, 0, 0, 0] 0x09) = some 0x09 ∧
    (config_write [0x61, 0x01, 0, 0, 0, 0, 0, 0] 0x09).length =
      [0x61, 0x01, 0, 0, 0, 0, 0, 0].length ∧
    (∀ slot, slot ≠ ADDR_CONFIG →
      (config_write [0x61, 0x01, 0, 0, 0, 0, 0, 0] 0x09).get? slot =
        [0x61, 0x01, 0, 0, 0, 0, 0, 0].get? slot) :=
  config_write_then_read [0x61, 0x01, 0, 0, 0, 0, 0, 0] 0x09 (by decide) (by decide)

/-! ## Properties of the interrupt line -/

/-- C11: for every configuration byte and every committed key event, the
interrupt line, deasserted before, is asserted by the commit if and only if
CONFIG holds the bit of a category of the event (CONFIG_INTMAKE for a make,
CONFIG_INTBREAK for a break, CONFIG_INTSPECIAL for a modifier-only transition),
and a commit never deasserts it. With CONFIG_INTCLR_READ set a read of KEY
deasserts the line; with it clear the only transaction that deasserts the line
is the command KBCTRL_INTCLEAR, which deasserts it under either setting. -/
theorem interrupt_line_follows_config (config : Nat) (ev : KeyEvent) :
    ((step ⟨config, false⟩ (.commit ev)).asserted = true ↔
      ∃ cat ∈ event_categories ev, flag_set config (relevant_config_bit cat) = true) ∧
    (ev = ⟨true, false⟩ →
      ((step ⟨config, false⟩ (.commit ev)).asserted = true ↔
        config &&& CONFIG_INTMAKE ≠ 0)) ∧
    (ev = ⟨false, false⟩ →
      ((step ⟨config, false⟩ (.commit ev)).asserted = true ↔
        config &&& CONFIG_INTBREAK ≠ 0)) ∧
    (ev.modifierOnly = true → config &&& CONFIG_INTSPECIAL ≠ 0 →
      (step ⟨config, false⟩ (.commit ev)).asserted = true) ∧
    (step ⟨config, true⟩ (.commit ev)).asserted = true ∧
    (clears_on_read config = true →
      (step ⟨config, true⟩ (.read ADDR_KEY)).asserted = false) ∧
    (clears_on_read config = false →
      ∀ t, (step ⟨config, true⟩ t).asserted = false ↔
        t = .write ADDR_KBCTRL KBCTRL_INTCLEAR) ∧
    (step ⟨config, true⟩ (.write ADDR_KBCTRL KBCTRL_INTCLEAR)).asserted = false := by
  refine ⟨?_, ?_, ?_, ?_, ?_, ?_, ?_, ?_⟩
  · obtain ⟨mk, md⟩ := ev
    cases mk <;> cases md <;>
      simp [step, asserts_on_commit, event_categories, relevant_config_bit]
  · rintro rfl
    simp [step, asserts_on_commit, flag_set]
  · rintro rfl
    simp [step, asserts_on_commit, flag_set]
  · intro hmod hbit
    simp [step, asserts_on_commit, flag_set, hmod, hbit]
  · simp [step]
  · intro hclr
    simp [step, hclr]
  · intro hclr t
    cases t with
    | commit e => simp [step]
    | read addr => simp [step, hclr]
    | write addr value =>
      by_cases ha : addr = ADDR_KBCTRL
      · by_cases hv : value = KBCTRL_INTCLEAR
        · simp [step, ha, hv]
        · simp [step, ha, hv]
      · by_cases hc : addr = ADDR_CONFIG
        · have hne : ¬ADDR_CONFIG = ADDR_KBCTRL := by decide
          simp [step, hc, hne]
        · simp [step, ha, hc]
  · simp [step]

/-- A witness of C11 on the scenario CONFIG = INTMAKE|INTCLR_READ with the make
of a plain key. -/
theorem interrupt_line_follows_config_witness :
    (step ⟨0x09, false⟩ (.commit ⟨true, false⟩)).asserted = true ∧
    (step ⟨0x09, true⟩ (.read ADDR_KEY)).asserted = false :=
  ⟨((interrupt_line_follows_config 0x09 ⟨true, false⟩).2.1 rfl).mpr (by decide),
   (interrupt_line_follows_config 0x09 ⟨true, false⟩).2.2.2.2.2.1 (by decide)⟩

/-! ## Properties of the pin masks -/

theorem drive_bits_and_disjoint (mask k p b : Nat)
    (hdisj : mask &&& k = 0) (hk : k &&& 0xFF = k) :
    drive_bits mask p b &&& k = p &&& k := by
  apply Nat.eq_of_testBit_eq
  intro i
  have h1 : (mask &&& k).testBit i = false := by
    rw [hdisj]
    exact Nat.zero_testBit i
  have h2 : (k &&& 0xFF).testBit i = k.testBit i := by rw [hk]
  simp only [drive_bits, complement8, Nat.testBit_and, Nat.testBit_or, Nat.testBit_xor] at *
  cases hp : p.testBit i <;> cases hb : b.testBit i <;> cases hm : mask.testBit i <;>
    cases hkk : k.testBit i <;> cases hf : (255).testBit i <;> simp_all

theorem drive_bits_and_mask (mask p b : Nat) (hm : mask &&& 0xFF = mask) :
    drive_bits mask p b &&& mask = b &&& mask := by
  apply Nat.eq_of_testBit_eq
  intro i
  have h2 : (mask &&& 0xFF).testBit i = mask.testBit i := by rw [hm]
  simp only [drive_bits, complement8, Nat.testBit_and, Nat.testBit_or, Nat.testBit_xor] at *
  cases hp : p.testBit i <;> cases hb : b.testBit i <;> cases hmk : mask.testBit i <;>
    cases hf : (255).testBit i <;> simp_all

theorem and_of_or_disjoint (p w k : Nat) (hdisj : w &&& k = 0) :
    (p ||| w) &&& k = p &&& k := by
  rw [Nat.and_distrib_right, hdisj, Nat.or_zero]

theorem and_of_xor_disjoint (p w k : Nat) (hdisj : w &&& k = 0) :
    (p ^^^ w) &&& k = p &&& k := by
  rw [Nat.and_xor_distrib_right, hdisj, Nat.xor_zero]

/-- C12: the signal masks that share a port are pairwise disjoint (PORTB: data
low 0x0F, interrupt 0x10, clock 0x20; PORTD: data high 0xF0, enable 0x08, pins
0-2 0x07; PORTC: address 0x07, write 0x08). Hence for every port value and data
byte, driving the data-bus bits of the port leaves its interrupt, clock,
enable, serial and PS/2-clock bits as they were and puts the bits of the byte
on the bus, and the decoded address is the same whatever the write line is. -/
theorem port_masks_disjoint (p b : Nat) :
    PORTB_MASKS = [0x0F, 0x10, 0x20] ∧ PORTD_MASKS = [0xF0, 0x08, 0x07] ∧
    PORTC_MASKS = [0x07, 0x08] ∧
    SERIAL_PINS_MASK ||| PS2_CLOCK_MASK = 0x07 ∧
    PORTB_MASKS.Pairwise (fun m k => m &&& k = 0) ∧
    PORTD_MASKS.Pairwise (fun m k => m &&& k = 0) ∧
    PORTC_MASKS.Pairwise (fun m k => m &&& k = 0) ∧
    drive_bits DATABUS_LOW_MASK p b &&& CPU_INT_MASK = p &&& CPU_INT_MASK ∧
    drive_bits DATABUS_LOW_MASK p b &&& CPU_CLK_MASK = p &&& CPU_CLK_MASK ∧
    drive_bits DATABUS_HIGH_MASK p b &&& ENABLE_PIN_MASK = p &&& ENABLE_PIN_MASK ∧
    drive_bits DATABUS_HIGH_MASK p b &&& SERIAL_PINS_MASK = p &&& SERIAL_PINS_MASK ∧
    drive_bits DATABUS_HIGH_MASK p b &&& PS2_CLOCK_MASK = p &&& PS2_CLOCK_MASK ∧
    drive_bits DATABUS_LOW_MASK p b &&& DATABUS_LOW_MASK = b &&& DATABUS_LOW_MASK ∧
    drive_bits DATABUS_HIGH_MASK p b &&& DATABUS_HIGH_MASK = b &&& DATABUS_HIGH_MASK ∧
    decode_address (p ||| WRITE_PINS_MASK) = decode_address p ∧
    decode_address (p ^^^ WRITE_PINS_MASK) = decode_address p ∧
    decode_address (p &&& complement8 WRITE_PINS_MASK) = decode_address p := by
  refine ⟨by decide, by decide, by decide, by decide, by decide, by decide, by decide,
    drive_bits_and_disjoint _ _ p b (by decide) (by decide),
    drive_bits_and_disjoint _ _ p b (by decide) (by decide),
    drive_bits_and_disjoint _ _ p b (by decide) (by decide),
    drive_bits_and_disjoint _ _ p b (by decide) (by decide),
    drive_bits_and_disjoint _ _ p b (by decide) (by decide),
    drive_bits_and_mask _ p b (by decide),
    drive_bits_and_mask _ p b (by decide),
    and_of_or_disjoint p _ _ (by decide),
    and_of_xor_disjoint p _ _ (by decide), ?_⟩
  unfold decode_address
  rw [Nat.and_assoc]
  rfl

/-! ## Further properties of the scancode table -/

/-- C13: the table has exactly 0x85 entries, the last of which, at index 0x84,
is the character `-` and so not null; the bytes 0xE0 and 0xF0 and every raw
code above 0x84 index no entry, so a code that has an entry is none of them. -/
theorem table_ends_at_0x84 (raw : Nat) :
    scancode_to_ascii.length = 0x85 ∧
    lookup 0x84 = some '-' ∧ lookup 0x84 ≠ some '\x00' ∧
    lookup 0x85 = none ∧ lookup 0xE0 = none ∧ lookup 0xF0 = none ∧
    (0x84 < raw → lookup raw = none) ∧
    ((∃ c, lookup raw = some c) → raw ≤ 0x84 ∧ raw ≠ 0xE0 ∧ raw ≠ 0xF0) := by
  have hlen := scancode_to_ascii_length
  refine ⟨hlen, by decide, by decide, by decide, by decide, by decide, ?_, ?_⟩
  · intro h
    exact List.get?_eq_none.mpr (by omega)
  · rintro ⟨c, hc⟩
    obtain ⟨h, _⟩ := List.get?_eq_some.mp hc
    omega

/-- C14: every lowercase letter is the entry of exactly one scancode, every
digit of exactly two, the first a main-row key and the second a keypad key, and
no entry of the table is an uppercase letter. -/
theorem table_letters_digits_unshifted :
    lowercase_letters = (List.range 26).map (fun n => Char.ofNat ('a'.toNat + n)) ∧
    digits = (List.range 10).map (fun n => Char.ofNat ('0'.toNat + n)) ∧
    (∀ c ∈ lowercase_letters, (scancodes_of c).length = 1) ∧
    (∀ c ∈ digits, (scancodes_of c).length = 2 ∧
      (scancodes_of c).map is_keypad = [false, true]) ∧
    (∀ c ∈ scancode_to_ascii, is_uppercase c = false) ∧
    (∀ n, 'A'.toNat ≤ n → n ≤ 'Z'.toNat → scancodes_of (Char.ofNat n) = []) := by
  refine ⟨by decide, by decide, by decide, by decide, by decide, ?_⟩
  intro n h1 h2
  have hall : ∀ k < 26, scancodes_of (Char.ofNat ('A'.toNat + k)) = [] := by decide
  have := hall (n - 'A'.toNat) (by simp at h1 h2 ⊢; omega)
  have hn : 'A'.toNat + (n - 'A'.toNat) = n := by omega
  rwa [hn] at this

/-- C15: the table is not injective on non-null values. The values `.`, `/`,
`=`, carriage return and 0x08 are each held by two entries (0x08 by entry 0x08,
labelled Escape, and entry 0x66, Backspace), `-` by the three entries 0x4E,
0x7B and 0x84, every digit by two; every other non-null value of the table is
held by exactly one entry. -/
theorem table_collisions_exact :
    scancodes_of '.' = [0x49, 0x71] ∧ scancodes_of '/' = [0x4A, 0x77] ∧
    scancodes_of '=' = [0x0F, 0x55] ∧ scancodes_of '\r' = [0x5A, 0x79] ∧
    scancodes_of '\x08' = [0x08, 0x66] ∧
    label 0x08 = some "Escape" ∧ label 0x66 = some "Backspace" ∧
    scancodes_of '-' = [0x4E, 0x7B, 0x84] ∧
    (∀ c ∈ digits, (scancodes_of c).length = 2) ∧
    (∀ c ∈ scancode_to_ascii, c ≠ '\x00' → c ∉ digits →
      c ∉ ['.', '/', '=', '\r', '\x08', '-'] → (scancodes_of c).length = 1) := by
  decide

/-- C16: every entry of the table is a 7-bit value, the largest being 0x7F, held
only by entry 0x64 (Delete); so bit 7 of every entry is 0 and the entry has the
same value read as a signed and as an unsigned char. -/
theorem table_entries_seven_bit :
    (∀ c ∈ scancode_to_ascii, c.toNat ≤ 0x7F ∧ c.toNat &&& 0x80 = 0 ∧
      signed_char_value c.toNat = unsigned_char_value c.toNat ∧
      unsigned_char_value c.toNat = (c.toNat : Int)) ∧
    lookup 0x64 = some '\x7f' ∧ label 0x64 = some "Delete" ∧
    scancodes_of '\x7f' = [0x64] ∧
    signed_char_value 0x80 ≠ unsigned_char_value 0x80 := by
  decide

end KeyboardController
